import Mathlib

/-!
Verification of the audio dataset preparation pipeline in
`audio_data_processor.py` (class `AudioDataProcessor`), together with its
caller `data_processing.py`.

The embedding is shallow and executable:

* floating point sample values are modelled as rationals (`ℚ`);
* numpy arrays are Lean lists;
* Python exceptions are modelled with `Except String`;
* the external decoders (`moviepy.VideoFileClip` and `librosa.load`) and the
  wall clock are abstracted into an `Env` record of functions, since their
  code is not part of this repository; everything downstream of them is
  translated from the source;
* the side effect of `sf.write` is modelled by the path list the code itself
  accumulates (`processed_files` in `process_domain_files`): the code performs
  exactly one `sf.write` per element it appends to that list;
* `print` logging is not modelled (it has no effect on control flow or data);
* the progress bar (`tqdm`) and the `processed_count` counter are cosmetic and
  are not modelled.

The RMS energy test `sqrt(mean(x^2)) >= 0.01` of the source is represented by
the equivalent square comparison `mean(x^2) >= 1/10000`, which keeps the
definition inside `ℚ`; the equivalence with the square root form over `ℝ` is
proved in `energyOK_iff_sqrt` below.
-/

namespace ADP

/-- Model of `os.path.basename`: the characters after the last `/`.
(The repository builds its paths with `/` separators.) -/
def basename (p : String) : String :=
  String.mk (p.data.foldl (fun acc c => if c = '/' then [] else acc ++ [c]) [])

/-- Model of `pathlib.Path(p).suffix`: the extension of the final component,
including the dot; empty when the name has no dot, starts with its only dot,
or ends with its last dot (pathlib semantics). -/
def suffix (p : String) : String :=
  let r := (basename p).data.reverse
  match r.findIdx? (fun c => c = '.') with
  | none => ""
  | some i => if i = 0 ∨ i = r.length - 1 then "" else String.mk ('.' :: (r.take i).reverse)

/-- Model of `str.lower`, applied characterwise. -/
def lower (s : String) : String := String.mk (s.data.map Char.toLower)

/-- Little-endian base-10 digits with explicit fuel; the fuel makes the
definition structurally recursive so that it evaluates inside the kernel. -/
def digitsRev : ℕ → ℕ → List ℕ
  | 0, _ => []
  | _ + 1, 0 => []
  | f + 1, m + 1 => ((m + 1) % 10) :: digitsRev f ((m + 1) / 10)

/-- Little-endian base-10 digits of `n` (empty for `0`). -/
def decimalDigits (n : ℕ) : List ℕ := digitsRev n n

/-- Model of the Python format specifier `f"{n:04d}"`: the decimal digits of
`n`, zero-padded on the left to at least four characters. -/
def format04 (n : ℕ) : String :=
  let ds := (decimalDigits n).reverse.map (fun d => Char.ofNat (48 + d))
  String.mk (List.replicate (4 - ds.length) '0' ++ ds)

/-- Inverse of `format04`, reading a zero-padded decimal string back; used to
prove that `format04` is injective. -/
def unformat04 (s : String) : ℕ :=
  Nat.ofDigits 10 ((s.data.map fun c => c.toNat - 48).reverse)

/-- Sum of squares of a sample buffer, `np.sum(x**2)` over `ℚ`. -/
def sumSq (xs : List ℚ) : ℚ := (xs.map fun x => x * x).sum

/-- Mean of a sample buffer, `np.mean(x)`; for the empty buffer `ℚ` division
by zero yields `0`. -/
def listMean (xs : List ℚ) : ℚ := xs.sum / (xs.length : ℚ)

/-- Mean square of a sample buffer, `np.mean(x**2)`. -/
def meanSq (xs : List ℚ) : ℚ := sumSq xs / (xs.length : ℚ)

/-- The energy floor test of the source, `np.sqrt(np.mean(x**2)) >= 0.01`,
expressed by the equivalent comparison of squares `mean(x^2) >= 1/10000`
(see `energyOK_iff_sqrt`).  On the empty buffer numpy produces `NaN`, whose
comparison is false; here `meanSq [] = 0` and the comparison is false too. -/
def energyOK (xs : List ℚ) : Bool := decide ((1 : ℚ) / 10000 ≤ meanSq xs)

/-- Peak absolute amplitude of a buffer, `np.max(np.abs(x))`. -/
def listAbsMax (xs : List ℚ) : ℚ := (xs.map fun x => |x|).foldr max 0

/-- Model of `librosa.util.normalize` with its default infinity norm: divide
by the peak absolute value.  The float implementation leaves a buffer whose
peak is below the `tiny` threshold untouched; in exact arithmetic this is the
zero-peak case. -/
def normalize (xs : List ℚ) : List ℚ :=
  if listAbsMax xs = 0 then xs else xs.map fun x => x / listAbsMax xs

/-- Audio data handed back by `moviepy`: `to_soundarray` returns either a 1-D
mono array or a 2-D (frames x channels) array. -/
inductive RawAudio where
  | mono (xs : List ℚ)
  | multi (rows : List (List ℚ))

/-- Outcome of opening a video container: either `video.audio is None`, or an
audio track that `to_soundarray` renders at the requested fps. -/
inductive VideoResult where
  | noAudio
  | audio (a : RawAudio)

/-- External collaborators of the processor: the video decoder
(`VideoFileClip` + `to_soundarray`, taking the requested fps), the audio
decoder (`librosa.load`, taking the requested sample rate), and the wall
clock used for `processed_datetime`.  An `Except.error` models a raised
exception inside the library call. -/
structure Env where
  videoClip : String → ℕ → Except String VideoResult
  librosaLoad : String → ℕ → Except String (List ℚ × ℕ)
  now : String

/-- Configuration state of `AudioDataProcessor.__init__`: the stored
attributes of the processor object, including the set (here: list) of
basenames processed by previous runs. -/
structure Config where
  target_sr : ℕ
  target_duration : ℚ
  target_samples : ℕ
  gap_samples : ℕ
  calibration_samples : ℕ
  eval_samples : ℕ
  previously_processed_files : List String

/-- Model of `AudioDataProcessor.__init__`: `target_samples` and
`gap_samples` are `int(target_sr * duration)`, i.e. the truncated products
(durations are nonnegative, so `int` truncation is the floor). -/
def mkProcessor (target_sr : ℕ) (target_duration : ℚ) (calibration_samples eval_samples : ℕ)
    (gap_duration : ℚ) (previously_processed_files : List String) : Config :=
  { target_sr := target_sr
    target_duration := target_duration
    target_samples := (((target_sr : ℚ) * target_duration).floor).toNat
    gap_samples := (((target_sr : ℚ) * gap_duration).floor).toNat
    calibration_samples := calibration_samples
    eval_samples := eval_samples
    previously_processed_files := previously_processed_files }

/-- Channel downmix of `load_audio_file`: a 2-D soundarray is averaged over
axis 1 (`np.mean(audio_array, axis=1)`); a 1-D array is returned as is. -/
def toMono : RawAudio → List ℚ
  | .mono xs => xs
  | .multi rows => rows.map listMean

/-- Translation of `AudioDataProcessor.load_audio_file`.  For an `.mp4` path
the video decoder runs; a container without audio yields the distinguished
result `(none, 0)` without an error.  Other extensions go through
`librosa.load` at the target rate.  Any decoder exception is logged and
re-raised, i.e. the `Except.error` value propagates unchanged. -/
def load_audio_file (env : Env) (cfg : Config) (file_path : String) :
    Except String (Option (List ℚ) × ℕ) :=
  if lower (suffix file_path) = ".mp4" then
    match env.videoClip file_path cfg.target_sr with
    | .error e => .error e
    | .ok .noAudio => .ok (none, 0)
    | .ok (.audio a) => .ok (some (toMono a), cfg.target_sr)
  else
    match env.librosaLoad file_path cfg.target_sr with
    | .error e => .error e
    | .ok (xs, sr) => .ok (some (xs), sr)

/-- The `while current_pos + target_samples <= len(audio)` loop of
`load_and_process_audio`, with explicit fuel so that the definition is
structurally recursive and kernel-evaluable.  Each iteration takes the window
of `target` samples at `current_pos`, keeps it when it passes the energy
floor, and advances by `target + gap`.  `extractSegments` supplies fuel
`audio.length + 1`, which is never exhausted when `0 < target + gap`
(the source loop does not terminate when `target + gap = 0`). -/
def segLoop (audio : List ℚ) (sr target gap : ℕ) : ℕ → ℕ → List (List ℚ × ℕ)
  | 0, _ => []
  | fuel + 1, pos =>
    if pos + target ≤ audio.length then
      let seg := (audio.drop pos).take target
      let rest := segLoop audio sr target gap fuel (pos + target + gap)
      if energyOK seg then (seg, sr) :: rest else rest
    else []

/-- The sequential windowing pass of `load_and_process_audio`, starting at
position 0. -/
def extractSegments (audio : List ℚ) (sr target gap : ℕ) : List (List ℚ × ℕ) :=
  segLoop audio sr target gap (audio.length + 1) 0

/-- Translation of `AudioDataProcessor.load_and_process_audio`.  A `none`
buffer (video without audio) yields no segments.  A buffer shorter than
`target_samples` is kept whole iff it passes the energy floor.  Otherwise the
buffer is peak-normalized, its mean is subtracted (DC offset removal), and
the sequential window loop runs.  Errors of the loading stage propagate
(the source logs and re-raises them). -/
def load_and_process_audio (env : Env) (cfg : Config) (file_path : String)
    (set_type : String) : Except String (List (List ℚ × ℕ)) :=
  match load_audio_file env cfg file_path with
  | .error e => .error e
  | .ok (none, _) => .ok []
  | .ok (some audio, sr) =>
    if audio.length < cfg.target_samples then
      if energyOK audio then .ok [(audio, sr)] else .ok []
    else
      let a1 := normalize audio
      let a2 := a1.map (fun x => x - listMean a1)
      .ok (extractSegments a2 sr cfg.target_samples cfg.gap_samples)

/-- One entry of `self.processed_files`: full path, timestamp, and the list
of output filenames produced from the source file. -/
structure FileRecord where
  full_path : String
  processed_datetime : String
  processed_filenames : List String
  deriving DecidableEq, Repr

/-- Output filename `f"{domain}_{idx:04d}.wav"`. -/
def segmentName (domain : String) (idx : ℕ) : String :=
  domain ++ "_" ++ format04 idx ++ ".wav"

/-- Output path `str(out_path / processed_filename)`. -/
def segmentPath (dir domain : String) (idx : ℕ) : String :=
  dir ++ "/" ++ segmentName domain idx

/-- State threaded through `process_domain_files`: the local `processed_files`
list of output paths written so far in this call, and the cumulative
`self.processed_files` map (an association list in dict insertion order). -/
structure BatchState where
  outputs : List String
  processed_files : List (String × FileRecord)
  deriving DecidableEq, Repr

/-- The inner `for i, (segment, sr) in enumerate(segments)` loop of
`process_domain_files`: stop once the quota is met, otherwise name the
segment after the current output count, write it (modelled by appending its
path to `outputs`), and remember the filename for the file record. -/
def saveSegments (dir domain : String) (target : ℕ) :
    List (List ℚ × ℕ) → List String → List String → List String × List String
  | [], outputs, names => (outputs, names)
  | (_seg, _sr) :: rest, outputs, names =>
    if target ≤ outputs.length then (outputs, names)
    else
      saveSegments dir domain target rest
        (outputs ++ [segmentPath dir domain outputs.length])
        (names ++ [segmentName domain outputs.length])

/-- The per-file loop of `process_domain_files`, in source order: skip a file
whose basename was processed in a previous run; break out of the whole loop
once the quota is met; skip a file already recorded in this run; load and
segment the file (an exception is logged and the loop continues, leaving no
record); save its segments and create its `FileRecord`. -/
def processLoop (env : Env) (cfg : Config) (dir domain set_type : String) (target : ℕ) :
    List String → BatchState → BatchState
  | [], st => st
  | file_path :: rest, st =>
    let filename := basename file_path
    if cfg.previously_processed_files.contains filename then
      processLoop env cfg dir domain set_type target rest st
    else if target ≤ st.outputs.length then st
    else if (st.processed_files.lookup filename).isSome then
      processLoop env cfg dir domain set_type target rest st
    else
      match load_and_process_audio env cfg file_path set_type with
      | .error _ => processLoop env cfg dir domain set_type target rest st
      | .ok segments =>
        let r := saveSegments dir domain target segments st.outputs []
        processLoop env cfg dir domain set_type target rest
          { outputs := r.1
            processed_files := st.processed_files ++ [(filename, ⟨file_path, env.now, r.2⟩)] }

/-- Translation of `AudioDataProcessor.process_domain_files`.  The Python
function returns `{f"{domain}_{set_type}": processed_files}` and mutates
`self.processed_files`; the model returns both in a `BatchState`.  `records`
is the value of `self.processed_files` on entry.  The quota is
`calibration_samples` for the calibration split and `eval_samples`
otherwise. -/
def process_domain_files (env : Env) (cfg : Config) (files : List String)
    (output_dir domain set_type : String) (records : List (String × FileRecord)) :
    BatchState :=
  let target := if set_type = "calibration" then cfg.calibration_samples else cfg.eval_samples
  let dir := output_dir ++ "/" ++ set_type ++ "/" ++ domain
  processLoop env cfg dir domain set_type target files ⟨[], records⟩

/-- Translation of `AudioDataProcessor.create_dataset_splits`: the three
domains are batched for the calibration split and then for the evaluation
split, threading `self.processed_files` (value `records0` on entry) through
all six calls; the manifest collects the six buckets in insertion order.
The attributes `segment_stats` and `processed_segments` that the source
resets are never read anywhere and are omitted. -/
def create_dataset_splits (env : Env) (cfg : Config)
    (speech_files music_files env_files : List String) (output_dir : String)
    (records0 : List (String × FileRecord)) :
    List (String × List String) × List (String × FileRecord) :=
  let c1 := process_domain_files env cfg speech_files output_dir "speech" "calibration" records0
  let c2 := process_domain_files env cfg music_files output_dir "music" "calibration"
    c1.processed_files
  let c3 := process_domain_files env cfg env_files output_dir "environmental" "calibration"
    c2.processed_files
  let e1 := process_domain_files env cfg speech_files output_dir "speech" "evaluation"
    c3.processed_files
  let e2 := process_domain_files env cfg music_files output_dir "music" "evaluation"
    e1.processed_files
  let e3 := process_domain_files env cfg env_files output_dir "environmental" "evaluation"
    e2.processed_files
  ([("speech_calibration", c1.outputs), ("music_calibration", c2.outputs),
    ("environmental_calibration", c3.outputs), ("speech_evaluation", e1.outputs),
    ("music_evaluation", e2.outputs), ("environmental_evaluation", e3.outputs)],
   e3.processed_files)

/-- A source file with basename `b` contributed output segments to the bucket
of a batcher call: the call created its record (no record under `b` before
the call, one after) and that record lists at least one written output
filename.  `before` and `after` are the `processed_files` maps around the
call. -/
def contributes (b : String) (before after : List (String × FileRecord)) : Prop :=
  before.lookup b = none ∧ ∃ r, after.lookup b = some r ∧ r.processed_filenames ≠ []

/-- Number of window attempts the sequential loop makes from position `pos`
on a buffer of length `L`. -/
def windowAttempts (L target gap pos : ℕ) : ℕ :=
  if pos + target ≤ L then (L - target - pos) / (target + gap) + 1 else 0

/-- Concrete fixture: two audio files `a.wav`, `b.wav`, each decoding to the
two-sample buffer `[1, -1]` at rate 1; no video decoding. -/
def envPair : Env :=
  { videoClip := fun _ _ => .error ("no video")
    librosaLoad := fun p _ =>
      if p = "a.wav" then .ok ([1, -1], 1)
      else if p = "b.wav" then .ok ([1, -1], 1)
      else .error ("missing file")
    now := "t0" }

/-- Concrete fixture: one-sample targets with no gap and quota 1 for both
splits, so each file of `envPair` yields two one-sample segments. -/
def cfgOne : Config :=
  { target_sr := 1, target_duration := 1, target_samples := 1, gap_samples := 0
    calibration_samples := 1, eval_samples := 1, previously_processed_files := [] }

/-- Concrete fixture: three audio files that each decode to the one-sample
buffer `[1]`. -/
def envThree : Env :=
  { videoClip := fun _ _ => .error ("no video")
    librosaLoad := fun p _ =>
      if p = "a.wav" then .ok ([1], 1)
      else if p = "b.wav" then .ok ([1], 1)
      else if p = "c.wav" then .ok ([1], 1)
      else .error ("missing file")
    now := "t0" }

/-- Concrete fixture: calibration quota 2, target length 4, so each one-sample
file of `envThree` yields exactly one (short-clip) segment. -/
def cfgQuotaTwo : Config :=
  { target_sr := 1, target_duration := 4, target_samples := 4, gap_samples := 1
    calibration_samples := 2, eval_samples := 5, previously_processed_files := [] }

/-- Concrete fixture: a video container `v.mp4` with no audio track. -/
def envVideo : Env :=
  { videoClip := fun p _ => if p = "v.mp4" then .ok .noAudio else .error ("bad video")
    librosaLoad := fun _ _ => .error ("not audio")
    now := "t1" }

/-- Concrete fixture: like `cfgOne` but with `a.wav` recorded as processed by
a previous run. -/
def cfgPrev : Config :=
  { target_sr := 1, target_duration := 1, target_samples := 1, gap_samples := 0
    calibration_samples := 1, eval_samples := 1, previously_processed_files := ["a.wav"] }

/-! ### Helper lemmas -/

theorem digitsRev_eq (fuel n : ℕ) (h : n ≤ fuel) : digitsRev fuel n = Nat.digits 10 n := by
  induction fuel generalizing n with
  | zero => interval_cases n; simp [digitsRev]
  | succ f ih =>
    match n with
    | 0 => simp [digitsRev]
    | m + 1 =>
      rw [digitsRev, show (10 : ℕ) = 8 + 2 by rfl, Nat.digits_add_two_add_one]
      rw [ih _ (by omega)]

theorem decimalDigits_eq (n : ℕ) : decimalDigits n = Nat.digits 10 n :=
  digitsRev_eq n n (Nat.le_refl n)

theorem ofDigits_replicate_zero (k : ℕ) : Nat.ofDigits 10 (List.replicate k 0) = 0 := by
  induction k with
  | zero => simp
  | succ m ih => rw [List.replicate_succ, Nat.ofDigits_cons, ih]

theorem unformat04_format04 (n : ℕ) : unformat04 (format04 n) = n := by
  unfold unformat04 format04
  simp only [List.map_append, List.map_map, List.map_replicate]
  have hd : ((decimalDigits n).reverse.map (fun d => Char.ofNat (48 + d))).map
      (fun c => Char.toNat c - 48) = (decimalDigits n).reverse := by
    rw [List.map_map]
    have : ∀ d ∈ (decimalDigits n).reverse,
        ((fun c => Char.toNat c - 48) ∘ fun d => Char.ofNat (48 + d)) d = d := by
      intro d hdm
      have hlt : d < 10 := by
        have hmem : d ∈ Nat.digits 10 n := by
          rw [← decimalDigits_eq]; exact List.mem_reverse.mp hdm
        exact Nat.digits_lt_base (by omega) hmem
      simp only [Function.comp]
      interval_cases d <;> decide
    rw [List.map_congr_left this]
    simp
  rw [List.map_map] at hd
  rw [hd, show ('0'.toNat - 48) = 0 from by decide,
    List.reverse_append, List.reverse_reverse, List.reverse_replicate]
  rw [Nat.ofDigits_append, ofDigits_replicate_zero, decimalDigits_eq, Nat.ofDigits_digits]
  simp

theorem format04_injective : Function.Injective format04 := by
  intro i j h
  have := congrArg unformat04 h
  rwa [unformat04_format04, unformat04_format04] at this

theorem string_data_append (a b : String) : (a ++ b).data = a.data ++ b.data := rfl

theorem string_data_inj {a b : String} (h : a.data = b.data) : a = b := by
  cases a; cases b; exact congrArg String.mk h

theorem segmentName_injective (domain : String) : Function.Injective (segmentName domain) := by
  intro i j h
  apply format04_injective
  have h2 : (segmentName domain i).data = (segmentName domain j).data := congrArg String.data h
  unfold segmentName at h2
  simp only [string_data_append, List.append_assoc] at h2
  have h3 := List.append_cancel_left h2
  have h4 := List.append_cancel_left h3
  exact string_data_inj (List.append_cancel_right h4)

theorem segmentPath_injective (dir domain : String) :
    Function.Injective (segmentPath dir domain) := by
  intro i j h
  apply segmentName_injective domain
  have h2 : (segmentPath dir domain i).data = (segmentPath dir domain j).data :=
    congrArg String.data h
  unfold segmentPath at h2
  simp only [string_data_append, List.append_assoc] at h2
  have h3 := List.append_cancel_left h2
  exact string_data_inj (List.append_cancel_left h3)

theorem lookup_append {α β : Type} [BEq α] (l1 l2 : List (α × β)) (b : α) :
    (l1 ++ l2).lookup b = ((l1.lookup b).orElse (fun _ => l2.lookup b)) := by
  induction l1 with
  | nil => simp [List.lookup]
  | cons x xs ih =>
    obtain ⟨k, v⟩ := x
    simp only [List.cons_append, List.lookup]
    cases hbk : (b == k) <;> simp [hbk, ih, Option.orElse]

theorem lookup_append_some {α β : Type} [BEq α] {l1 : List (α × β)} (l2 : List (α × β))
    {b : α} {r : β} (h : l1.lookup b = some r) : (l1 ++ l2).lookup b = some r := by
  rw [lookup_append, h]; rfl

theorem normalize_length (xs : List ℚ) : (normalize xs).length = xs.length := by
  unfold normalize
  split <;> simp

theorem meanSq_nonneg (xs : List ℚ) : 0 ≤ meanSq xs := by
  unfold meanSq sumSq
  apply div_nonneg
  · apply List.sum_nonneg
    intro x hx
    simp only [List.mem_map] at hx
    obtain ⟨y, _, rfl⟩ := hx
    exact mul_self_nonneg y
  · exact_mod_cast Nat.zero_le _

/-- The comparison of squares used by `energyOK` is equivalent to the RMS
comparison `0.01 <= sqrt(mean(x^2))` of the source, read over the reals. -/
theorem energyOK_iff_sqrt (xs : List ℚ) :
    energyOK xs = true ↔ ((1 : ℝ) / 100) ≤ Real.sqrt ((meanSq xs : ℚ) : ℝ) := by
  unfold energyOK
  rw [decide_eq_true_eq]
  have hms : (0 : ℝ) ≤ ((meanSq xs : ℚ) : ℝ) := by exact_mod_cast meanSq_nonneg xs
  rw [show ((1 : ℝ) / 100) = Real.sqrt ((1 : ℝ) / 10000) by
    rw [show ((1 : ℝ) / 10000) = (1 / 100) ^ 2 by norm_num, Real.sqrt_sq (by norm_num)]]
  rw [Real.sqrt_le_sqrt_iff hms]
  rw [show ((1 : ℝ) / 10000) = (((1 : ℚ) / 10000 : ℚ) : ℝ) by norm_num]
  exact (Rat.cast_le (K := ℝ)).symm

theorem segLoop_eq (audio : List ℚ) (sr target gap : ℕ) (hstep : 0 < target + gap) :
    ∀ fuel pos, audio.length + 1 ≤ fuel + pos →
      segLoop audio sr target gap fuel pos =
        (((List.range (windowAttempts audio.length target gap pos)).map
          (fun k => ((audio.drop (pos + k * (target + gap))).take target, sr))).filter
          (fun q => energyOK q.1)) := by
  intro fuel
  induction fuel with
  | zero =>
    intro pos hpos
    have h : ¬ (pos + target ≤ audio.length) := by omega
    simp [segLoop, windowAttempts, h]
  | succ f ih =>
    intro pos hpos
    rw [segLoop]
    by_cases h : pos + target ≤ audio.length
    · rw [if_pos h]
      rw [ih (pos + target + gap) (by omega)]
      have hcnt : windowAttempts audio.length target gap pos =
          windowAttempts audio.length target gap (pos + target + gap) + 1 := by
        unfold windowAttempts
        by_cases h2 : pos + target + gap + target ≤ audio.length
        · rw [if_pos h, if_pos h2]
          have he : audio.length - target - pos =
              (audio.length - target - (pos + target + gap)) + (target + gap) := by omega
          rw [he, Nat.add_div_right _ hstep]
        · rw [if_pos h, if_neg h2]
          have hlt : audio.length - target - pos < target + gap := by omega
          rw [Nat.div_eq_of_lt hlt]
      rw [hcnt, List.range_succ_eq_map, List.map_cons, List.map_map, List.filter_cons]
      have h0 : pos + 0 * (target + gap) = pos := by omega
      rw [h0]
      have hshift : (List.range (windowAttempts audio.length target gap (pos + target + gap))).map
          ((fun k => ((audio.drop (pos + k * (target + gap))).take target, sr)) ∘ Nat.succ) =
          (List.range (windowAttempts audio.length target gap (pos + target + gap))).map
          (fun k => ((audio.drop (pos + target + gap + k * (target + gap))).take target, sr)) := by
        apply List.map_congr_left
        intro k _
        simp only [Function.comp]
        have : pos + Nat.succ k * (target + gap) = pos + target + gap + k * (target + gap) := by
          rw [Nat.succ_mul]; omega
        rw [this]
      rw [hshift]
    · rw [if_neg h]
      have hz : windowAttempts audio.length target gap pos = 0 := by
        unfold windowAttempts; rw [if_neg h]
      simp [hz]

theorem extractSegments_eq (audio : List ℚ) (sr target gap : ℕ)
    (hstep : 0 < target + gap) :
    extractSegments audio sr target gap =
      ((List.range (windowAttempts audio.length target gap 0)).map
        (fun k => ((audio.drop (k * (target + gap))).take target, sr))).filter
        (fun q => energyOK q.1) := by
  unfold extractSegments
  rw [segLoop_eq audio sr target gap hstep (audio.length + 1) 0 (by omega)]
  congr 1
  apply List.map_congr_left
  intro k _
  rw [Nat.zero_add]

theorem saveSegments_length_le (dir domain : String) (target : ℕ) :
    ∀ segs outputs names, outputs.length ≤ target →
      (saveSegments dir domain target segs outputs names).1.length ≤ target := by
  intro segs
  induction segs with
  | nil => intro o n h; simpa [saveSegments] using h
  | cons s rest ih =>
    intro o n h
    obtain ⟨seg, sr⟩ := s
    rw [saveSegments]
    split
    · exact h
    · next hq =>
      apply ih
      simp only [List.length_append, List.length_singleton]
      omega

theorem processLoop_length_le (env : Env) (cfg : Config) (dir domain set_type : String) (target : ℕ) :
    ∀ files st, st.outputs.length ≤ target →
      (processLoop env cfg dir domain set_type target files st).outputs.length ≤ target := by
  intro files
  induction files with
  | nil => intro st h; simpa [processLoop] using h
  | cons f rest ih =>
    intro st h
    rw [processLoop]
    split
    · exact ih st h
    · split
      · exact h
      · split
        · exact ih st h
        · split
          · exact ih st h
          · next hq _ segs _ =>
            apply ih
            exact saveSegments_length_le dir domain target segs st.outputs [] (by omega)

theorem saveSegments_outputs_spec (dir domain : String) (target : ℕ) :
    ∀ segs outputs names,
      outputs = (List.range outputs.length).map (segmentPath dir domain) →
      (saveSegments dir domain target segs outputs names).1 =
        (List.range (saveSegments dir domain target segs outputs names).1.length).map
          (segmentPath dir domain) := by
  intro segs
  induction segs with
  | nil => intro o n h; simpa [saveSegments] using h
  | cons s rest ih =>
    intro o n h
    obtain ⟨seg, sr⟩ := s
    rw [saveSegments]
    split
    · exact h
    · apply ih
      conv_lhs => rw [h]
      simp only [List.length_append, List.length_singleton]
      rw [List.range_succ, List.map_append, List.map_cons, List.map_nil]
      congr 2
      exact congrArg (fun m => segmentPath dir domain m) (congrArg List.length h.symm)

theorem processLoop_outputs_spec (env : Env) (cfg : Config) (dir domain set_type : String) (target : ℕ) :
    ∀ files st,
      st.outputs = (List.range st.outputs.length).map (segmentPath dir domain) →
      (processLoop env cfg dir domain set_type target files st).outputs =
        (List.range (processLoop env cfg dir domain set_type target files st).outputs.length).map
          (segmentPath dir domain) := by
  intro files
  induction files with
  | nil => intro st h; simpa [processLoop] using h
  | cons f rest ih =>
    intro st h
    rw [processLoop]
    split
    · exact ih st h
    · split
      · exact h
      · split
        · exact ih st h
        · split
          · exact ih st h
          · next segs _ =>
            apply ih
            exact saveSegments_outputs_spec dir domain target segs st.outputs [] h

theorem processLoop_records_mono (env : Env) (cfg : Config) (dir domain set_type : String) (target : ℕ) :
    ∀ files st b r, st.processed_files.lookup b = some r →
      (processLoop env cfg dir domain set_type target files st).processed_files.lookup b = some r := by
  intro files
  induction files with
  | nil => intro st b r h; simpa [processLoop] using h
  | cons f rest ih =>
    intro st b r h
    rw [processLoop]
    split
    · exact ih st b r h
    · split
      · exact h
      · split
        · exact ih st b r h
        · split
          · exact ih st b r h
          · apply ih
            exact lookup_append_some _ h

theorem processLoop_skip_prev (env : Env) (cfg : Config) (dir domain set_type : String) (target : ℕ)
    (f : String) (rest : List String) (st : BatchState)
    (h : cfg.previously_processed_files.contains (basename f) = true) :
    processLoop env cfg dir domain set_type target (f :: rest) st =
      processLoop env cfg dir domain set_type target rest st := by
  have hm : basename f ∈ cfg.previously_processed_files := by simpa using h
  rw [processLoop]
  simp [hm]

theorem processLoop_break (env : Env) (cfg : Config) (dir domain set_type : String) (target : ℕ)
    (f : String) (rest : List String) (st : BatchState)
    (h1 : cfg.previously_processed_files.contains (basename f) = false)
    (h2 : target ≤ st.outputs.length) :
    processLoop env cfg dir domain set_type target (f :: rest) st = st := by
  have hm : basename f ∉ cfg.previously_processed_files := by simpa using h1
  rw [processLoop]
  simp [hm, h2]

theorem processLoop_skip_recorded (env : Env) (cfg : Config) (dir domain set_type : String) (target : ℕ)
    (f : String) (rest : List String) (st : BatchState) (r : FileRecord)
    (h1 : cfg.previously_processed_files.contains (basename f) = false)
    (h2 : st.outputs.length < target)
    (h3 : st.processed_files.lookup (basename f) = some r) :
    processLoop env cfg dir domain set_type target (f :: rest) st =
      processLoop env cfg dir domain set_type target rest st := by
  have hm : basename f ∉ cfg.previously_processed_files := by simpa using h1
  rw [processLoop]
  simp [hm, h3, show ¬ target ≤ st.outputs.length from by omega]

theorem processLoop_step_error (env : Env) (cfg : Config) (dir domain set_type : String) (target : ℕ)
    (f : String) (rest : List String) (st : BatchState) (e : String)
    (h1 : cfg.previously_processed_files.contains (basename f) = false)
    (h2 : st.outputs.length < target)
    (h3 : st.processed_files.lookup (basename f) = none)
    (h4 : load_and_process_audio env cfg f set_type = .error e) :
    processLoop env cfg dir domain set_type target (f :: rest) st =
      processLoop env cfg dir domain set_type target rest st := by
  have hm : basename f ∉ cfg.previously_processed_files := by simpa using h1
  rw [processLoop]
  simp [hm, h3, h4, show ¬ target ≤ st.outputs.length from by omega]

theorem processLoop_step_ok (env : Env) (cfg : Config) (dir domain set_type : String) (target : ℕ)
    (f : String) (rest : List String) (st : BatchState) (segs : List (List ℚ × ℕ))
    (h1 : cfg.previously_processed_files.contains (basename f) = false)
    (h2 : st.outputs.length < target)
    (h3 : st.processed_files.lookup (basename f) = none)
    (h4 : load_and_process_audio env cfg f set_type = .ok segs) :
    processLoop env cfg dir domain set_type target (f :: rest) st =
      processLoop env cfg dir domain set_type target rest
        { outputs := (saveSegments dir domain target segs st.outputs []).1
          processed_files := st.processed_files ++
            [(basename f, ⟨f, env.now, (saveSegments dir domain target segs st.outputs []).2⟩)] } := by
  have hm : basename f ∉ cfg.previously_processed_files := by simpa using h1
  rw [processLoop]
  simp [hm, h3, h4, show ¬ target ≤ st.outputs.length from by omega]

theorem processLoop_all_prev (env : Env) (cfg : Config) (dir domain set_type : String)
    (target : ℕ) :
    ∀ files st, (∀ f ∈ files, cfg.previously_processed_files.contains (basename f) = true) →
      processLoop env cfg dir domain set_type target files st = st := by
  intro files
  induction files with
  | nil => intro st _; rw [processLoop]
  | cons f rest ih =>
    intro st hall
    rw [processLoop_skip_prev env cfg dir domain set_type target f rest st
      (hall f (List.mem_cons_self f rest))]
    exact ih st (fun g hg => hall g (List.mem_cons_of_mem f hg))

theorem outputs_head_zero {l : List String} {dir domain : String}
    (h : l = (List.range l.length).map (segmentPath dir domain)) (hne : l ≠ []) :
    l.head? = some (segmentPath dir domain 0) := by
  match l, h, hne with
  | [], _, hne => exact absurd rfl hne
  | a :: t, h, _ =>
    rw [List.length_cons, List.range_succ_eq_map, List.map_cons] at h
    have ha : a = segmentPath dir domain 0 := (List.cons.injEq _ _ _ _ ▸ h).1
    rw [List.head?_cons, ha]

theorem process_domain_files_nil (env : Env) (cfg : Config) (output_dir domain set_type : String)
    (records : List (String × FileRecord)) :
    process_domain_files env cfg [] output_dir domain set_type records = ⟨[], records⟩ := rfl

theorem lookup_single_ne {α β : Type} [BEq α] [LawfulBEq α] {b k : α} {v : β} (h : b ≠ k) :
    List.lookup b [(k, v)] = none := by
  simp [List.lookup, beq_eq_false_iff_ne.mpr h]

theorem lookup_append_ne (records : List (String × FileRecord)) (b k : String) (r : FileRecord)
    (hb : records.lookup b = none) (h : b ≠ k) :
    (records ++ [(k, r)]).lookup b = none := by
  rw [lookup_append, hb]
  simp [lookup_single_ne h, Option.orElse]

theorem process_domain_files_records_mono (env : Env) (cfg : Config) (files : List String)
    (output_dir domain set_type : String) (records : List (String × FileRecord))
    (b : String) (r : FileRecord) (h : records.lookup b = some r) :
    (process_domain_files env cfg files output_dir domain set_type
      records).processed_files.lookup b = some r := by
  unfold process_domain_files
  exact processLoop_records_mono env cfg _ domain set_type _ files ⟨[], records⟩ b r h

theorem envPair_load (p : String) (hp : p = "a.wav" ∨ p = "b.wav") (s : String) :
    load_and_process_audio envPair cfgOne p s = .ok [([1], 1), ([-1], 1)] := by
  have hload : load_audio_file envPair cfgOne p = .ok (some [1, -1], 1) := by
    rcases hp with h | h <;> subst h <;> rfl
  unfold load_and_process_audio
  rw [hload]
  norm_num [cfgOne, normalize, listAbsMax, listMean, extractSegments, segLoop, energyOK,
    meanSq, sumSq]

theorem envThree_load (p : String) (hp : p = "a.wav" ∨ p = "b.wav" ∨ p = "c.wav") (s : String) :
    load_and_process_audio envThree cfgQuotaTwo p s = .ok [([1], 1)] := by
  have hload : load_audio_file envThree cfgQuotaTwo p = .ok (some [1], 1) := by
    rcases hp with h | h | h <;> subst h <;> rfl
  unfold load_and_process_audio
  rw [hload]
  norm_num [cfgQuotaTwo, energyOK, meanSq, sumSq]

theorem musicCalRun :
    process_domain_files envPair cfgOne ["a.wav", "b.wav"] "out" "music" "calibration" [] =
      ⟨["out/calibration/music/music_0000.wav"],
       [("a.wav", ⟨"a.wav", "t0", ["music_0000.wav"]⟩)]⟩ := by
  have hA := envPair_load ("a.wav") (Or.inl rfl) ("calibration")
  simp only [process_domain_files]
  rw [processLoop]
  simp only [hA]
  norm_num [cfgOne, basename, saveSegments, segmentPath, segmentName, List.lookup]
  rw [processLoop]
  norm_num [cfgOne, basename]
  decide

theorem musicEvalRun :
    process_domain_files envPair cfgOne ["a.wav", "b.wav"] "out" "music" "evaluation"
      [("a.wav", ⟨"a.wav", "t0", ["music_0000.wav"]⟩)] =
      ⟨["out/evaluation/music/music_0000.wav"],
       [("a.wav", ⟨"a.wav", "t0", ["music_0000.wav"]⟩),
        ("b.wav", ⟨"b.wav", "t0", ["music_0000.wav"]⟩)]⟩ := by
  have hB := envPair_load ("b.wav") (Or.inr rfl) ("evaluation")
  have hprev : cfgOne.previously_processed_files = [] := rfl
  have heval : cfgOne.eval_samples = 1 := rfl
  simp only [process_domain_files]
  rw [processLoop]
  norm_num [basename, List.lookup, hprev, heval]
  rw [processLoop]
  simp only [hB]
  norm_num [basename, saveSegments, segmentPath, segmentName, List.lookup, hprev, heval]
  rw [processLoop]
  decide

theorem quotaTwoRun :
    process_domain_files envThree cfgQuotaTwo ["a.wav", "b.wav", "c.wav"] "out" "music"
      "calibration" [] =
      ⟨["out/calibration/music/music_0000.wav", "out/calibration/music/music_0001.wav"],
       [("a.wav", ⟨"a.wav", "t0", ["music_0000.wav"]⟩),
        ("b.wav", ⟨"b.wav", "t0", ["music_0001.wav"]⟩)]⟩ := by
  have hA := envThree_load ("a.wav") (Or.inl rfl) ("calibration")
  have hB := envThree_load ("b.wav") (Or.inr (Or.inl rfl)) ("calibration")
  have hprev : cfgQuotaTwo.previously_processed_files = [] := rfl
  have hcal : cfgQuotaTwo.calibration_samples = 2 := rfl
  simp only [process_domain_files]
  rw [processLoop]
  simp only [hA]
  norm_num [basename, saveSegments, segmentPath, segmentName, List.lookup, hprev, hcal]
  rw [processLoop]
  simp only [hB]
  norm_num [basename, saveSegments, segmentPath, segmentName, List.lookup, hprev, hcal]
  rw [processLoop]
  norm_num [basename, hprev, hcal]
  decide

/-! ### Claims -/

/-- C3: for every input file list and every (domain, split) pair, the number
of output files written by one `process_domain_files` call never exceeds the
configured quota for the split: `calibration_samples` when the split is
`"calibration"`, `eval_samples` otherwise. -/
theorem C3_quota_invariant (env : Env) (cfg : Config) (files : List String)
    (output_dir domain set_type : String) (records : List (String × FileRecord)) :
    (process_domain_files env cfg files output_dir domain set_type records).outputs.length ≤
      (if set_type = "calibration" then cfg.calibration_samples else cfg.eval_samples) := by
  unfold process_domain_files
  exact processLoop_length_le env cfg _ domain set_type _ files ⟨[], records⟩ (by simp)

/-- C8: a candidate file whose basename is in the previously-processed set is
skipped with no side effect (the loop state is untouched), and consequently a
`process_domain_files` call in which every candidate basename is already in
that set writes no files and leaves the record map unchanged. -/
theorem C8_resumption_idempotent :
    (∀ (env : Env) (cfg : Config) (dir domain set_type : String) (target : ℕ)
      (f : String) (rest : List String) (st : BatchState),
      cfg.previously_processed_files.contains (basename f) = true →
      processLoop env cfg dir domain set_type target (f :: rest) st =
        processLoop env cfg dir domain set_type target rest st) ∧
    (∀ (env : Env) (cfg : Config) (files : List String)
      (output_dir domain set_type : String) (records : List (String × FileRecord)),
      (∀ f ∈ files, cfg.previously_processed_files.contains (basename f) = true) →
      process_domain_files env cfg files output_dir domain set_type records =
        ⟨[], records⟩) := by
  constructor
  · exact processLoop_skip_prev
  · intro env cfg files output_dir domain set_type records hall
    unfold process_domain_files
    exact processLoop_all_prev env cfg _ domain set_type _ files ⟨[], records⟩ hall

/-- C9: within one `process_domain_files` call the output paths are exactly
`{output_dir}/{set_type}/{domain}/{domain}_{i:04d}.wav` for `i` running
contiguously from 0, in order — the index of each write is the count of
outputs written so far in the bucket — and the written names are pairwise
distinct. -/
theorem C9_output_naming (env : Env) (cfg : Config) (files : List String)
    (output_dir domain set_type : String) (records : List (String × FileRecord)) :
    (process_domain_files env cfg files output_dir domain set_type records).outputs =
      (List.range
        (process_domain_files env cfg files output_dir domain set_type records).outputs.length).map
        (segmentPath (output_dir ++ "/" ++ set_type ++ "/" ++ domain) domain) ∧
    (process_domain_files env cfg files output_dir domain set_type records).outputs.Nodup := by
  unfold process_domain_files
  have h1 := processLoop_outputs_spec env cfg (output_dir ++ "/" ++ set_type ++ "/" ++ domain)
    domain set_type
    (if set_type = "calibration" then cfg.calibration_samples else cfg.eval_samples)
    files ⟨[], records⟩ (by simp)
  refine ⟨h1, ?_⟩
  rw [h1]
  exact List.Nodup.map (segmentPath_injective _ _) (List.nodup_range _)

/-- C10: the output index of a `process_domain_files` call always starts at 0
— it is the length of a list that is freshly empty at the start of the call,
independent of the previously-processed set, the cumulative record map, or
any other argument — so whenever a call writes anything its first output is
`{domain}_0000.wav`, and two runs for the same (output root, domain, split)
that both write reuse the same first filename. -/
theorem C10_index_restarts_at_zero (env : Env) (cfg : Config) (files : List String)
    (output_dir domain set_type : String) (records : List (String × FileRecord))
    (env' : Env) (cfg' : Config) (files' : List String)
    (records' : List (String × FileRecord)) :
    ((process_domain_files env cfg files output_dir domain set_type records).outputs ≠ [] →
      (process_domain_files env cfg files output_dir domain set_type records).outputs.head? =
        some (segmentPath (output_dir ++ "/" ++ set_type ++ "/" ++ domain) domain 0)) ∧
    segmentName domain 0 = domain ++ "_0000.wav" ∧
    ((process_domain_files env cfg files output_dir domain set_type records).outputs ≠ [] →
      (process_domain_files env' cfg' files' output_dir domain set_type records').outputs ≠ [] →
      (process_domain_files env cfg files output_dir domain set_type records).outputs.head? =
        (process_domain_files env' cfg' files' output_dir domain set_type records').outputs.head?) := by
  have key : ∀ (e : Env) (c : Config) (fs : List String) (rs : List (String × FileRecord)),
      (process_domain_files e c fs output_dir domain set_type rs).outputs ≠ [] →
      (process_domain_files e c fs output_dir domain set_type rs).outputs.head? =
        some (segmentPath (output_dir ++ "/" ++ set_type ++ "/" ++ domain) domain 0) := by
    intro e c fs rs hne
    apply outputs_head_zero _ hne
    unfold process_domain_files at hne ⊢
    exact processLoop_outputs_spec e c (output_dir ++ "/" ++ set_type ++ "/" ++ domain)
      domain set_type
      (if set_type = "calibration" then c.calibration_samples else c.eval_samples)
      fs ⟨[], rs⟩ (by simp)
  refine ⟨key env cfg files records, ?_, ?_⟩
  · apply string_data_inj
    unfold segmentName
    simp only [string_data_append, List.append_assoc]
    congr 1
  · intro h1 h2
    rw [key env cfg files records h1, key env' cfg' files' records' h2]

/-- C6: a decoder exception propagates out of the Loader unchanged (it is
re-raised, not swallowed) for both the video and the librosa path, it
propagates further out of `load_and_process_audio`, and the per-file boundary
of the Domain Batcher catches it: the failing file gets no record, the state
is untouched, and the loop continues with the remaining candidates. -/
theorem C6_per_file_error_boundary :
    (∀ (env : Env) (cfg : Config) (p e : String), lower (suffix p) = ".mp4" →
      env.videoClip p cfg.target_sr = .error e → load_audio_file env cfg p = .error e) ∧
    (∀ (env : Env) (cfg : Config) (p e : String), ¬ lower (suffix p) = ".mp4" →
      env.librosaLoad p cfg.target_sr = .error e → load_audio_file env cfg p = .error e) ∧
    (∀ (env : Env) (cfg : Config) (p set_type e : String),
      load_audio_file env cfg p = .error e →
      load_and_process_audio env cfg p set_type = .error e) ∧
    (∀ (env : Env) (cfg : Config) (dir domain set_type : String) (target : ℕ)
      (f : String) (rest : List String) (st : BatchState) (e : String),
      cfg.previously_processed_files.contains (basename f) = false →
      st.outputs.length < target →
      st.processed_files.lookup (basename f) = none →
      load_and_process_audio env cfg f set_type = .error e →
      processLoop env cfg dir domain set_type target (f :: rest) st =
        processLoop env cfg dir domain set_type target rest st) := by
  refine ⟨?_, ?_, ?_, ?_⟩
  · intro env cfg p e h1 h2
    unfold load_audio_file
    rw [if_pos h1, h2]
  · intro env cfg p e h1 h2
    unfold load_audio_file
    rw [if_neg h1, h2]
  · intro env cfg p set_type e h
    unfold load_and_process_audio
    rw [h]
  · exact processLoop_step_error

/-- C7: a video container without an audio track yields the distinguished
no-audio result `(none, 0)` from the Loader without an exception, zero
segments from `load_and_process_audio`, and the Domain Batcher still creates
a record for the file with an empty output-filename list while writing
nothing. -/
theorem C7_no_audio_track (env : Env) (cfg : Config) (p : String)
    (hmp4 : lower (suffix p) = ".mp4")
    (hna : env.videoClip p cfg.target_sr = .ok .noAudio) :
    load_audio_file env cfg p = .ok (none, 0) ∧
    (∀ set_type, load_and_process_audio env cfg p set_type = .ok []) ∧
    (∀ (dir domain set_type : String) (target : ℕ) (rest : List String) (st : BatchState),
      cfg.previously_processed_files.contains (basename p) = false →
      st.outputs.length < target →
      st.processed_files.lookup (basename p) = none →
      processLoop env cfg dir domain set_type target (p :: rest) st =
        processLoop env cfg dir domain set_type target rest
          { outputs := st.outputs
            processed_files := st.processed_files ++ [(basename p, ⟨p, env.now, []⟩)] }) := by
  have hload : load_audio_file env cfg p = .ok (none, 0) := by
    unfold load_audio_file
    rw [if_pos hmp4, hna]
  have hproc : ∀ set_type, load_and_process_audio env cfg p set_type = .ok [] := by
    intro set_type
    unfold load_and_process_audio
    rw [hload]
  refine ⟨hload, hproc, ?_⟩
  intro dir domain set_type target rest st h1 h2 h3
  have := processLoop_step_ok env cfg dir domain set_type target p rest st [] h1 h2 h3
    (hproc set_type)
  simpa [saveSegments] using this

/-- C5: a loaded buffer shorter than `target_samples` is returned whole as a
single segment when the raw buffer passes the energy floor (RMS at least
0.01, i.e. mean square at least 1/10000), and yields no segments when it does
not. -/
theorem C5_short_clip_fallback (env : Env) (cfg : Config) (p set_type : String)
    (audio : List ℚ) (sr : ℕ)
    (hload : load_audio_file env cfg p = .ok (some audio, sr))
    (hshort : audio.length < cfg.target_samples) :
    ((1 : ℚ) / 10000 ≤ meanSq audio →
      load_and_process_audio env cfg p set_type = .ok [(audio, sr)]) ∧
    (meanSq audio < 1 / 10000 →
      load_and_process_audio env cfg p set_type = .ok []) := by
  constructor
  · intro h
    unfold load_and_process_audio
    rw [hload]
    simp [hshort, energyOK, h]
    rwa [← one_div]
  · intro h
    unfold load_and_process_audio
    rw [hload]
    simp [hshort, energyOK, not_le.mpr h]
    rwa [← one_div]

/-- C4: a loaded buffer of length at least `target_samples` is first
peak-normalized and mean-subtracted; the window loop then makes exactly
`(L - target_samples) / (target_samples + gap_samples) + 1` attempts,
the windows starting at 0 and advancing by `target_samples + gap_samples`,
each kept iff it passes the energy floor, so the kept count is at most the
attempt count. -/
theorem C4_sequential_windowing (env : Env) (cfg : Config) (p set_type : String)
    (audio : List ℚ) (sr : ℕ)
    (hload : load_audio_file env cfg p = .ok (some audio, sr))
    (hlong : cfg.target_samples ≤ audio.length)
    (hstep : 0 < cfg.target_samples + cfg.gap_samples) :
    ∃ segs, load_and_process_audio env cfg p set_type = .ok segs ∧
      segs = ((List.range ((audio.length - cfg.target_samples) /
            (cfg.target_samples + cfg.gap_samples) + 1)).map
        (fun k => ((((normalize audio).map
            (fun x => x - listMean (normalize audio))).drop
              (k * (cfg.target_samples + cfg.gap_samples))).take cfg.target_samples, sr))).filter
        (fun q => energyOK q.1) ∧
      segs.length ≤ (audio.length - cfg.target_samples) /
        (cfg.target_samples + cfg.gap_samples) + 1 := by
  have hlen : ((normalize audio).map (fun x => x - listMean (normalize audio))).length =
      audio.length := by
    rw [List.length_map, normalize_length]
  have hrun : load_and_process_audio env cfg p set_type =
      .ok (extractSegments ((normalize audio).map (fun x => x - listMean (normalize audio)))
        sr cfg.target_samples cfg.gap_samples) := by
    unfold load_and_process_audio
    rw [hload]
    simp [show ¬ audio.length < cfg.target_samples from by omega]
  have hatt : windowAttempts ((normalize audio).map
      (fun x => x - listMean (normalize audio))).length cfg.target_samples cfg.gap_samples 0 =
      (audio.length - cfg.target_samples) / (cfg.target_samples + cfg.gap_samples) + 1 := by
    rw [hlen]
    unfold windowAttempts
    rw [if_pos (by omega)]
    congr 2
  refine ⟨_, hrun, ?_, ?_⟩
  · rw [extractSegments_eq _ _ _ _ hstep, hatt]
  · rw [extractSegments_eq _ _ _ _ hstep, hatt]
    calc (((List.range ((audio.length - cfg.target_samples) /
            (cfg.target_samples + cfg.gap_samples) + 1)).map
          (fun k => ((((normalize audio).map
            (fun x => x - listMean (normalize audio))).drop
              (k * (cfg.target_samples + cfg.gap_samples))).take cfg.target_samples,
            sr))).filter (fun q => energyOK q.1)).length ≤
        ((List.range ((audio.length - cfg.target_samples) /
            (cfg.target_samples + cfg.gap_samples) + 1)).map
          (fun k => ((((normalize audio).map
            (fun x => x - listMean (normalize audio))).drop
              (k * (cfg.target_samples + cfg.gap_samples))).take cfg.target_samples,
            sr))).length := List.length_filter_le _ _
      _ = (audio.length - cfg.target_samples) / (cfg.target_samples + cfg.gap_samples) + 1 := by
        rw [List.length_map, List.length_range]

/-- C1 (amended): within one run of the Dataset Assembler no source file
contributes output segments to both the calibration and the evaluation bucket
of its domain.  Although the file lists are passed to both passes without set
subtraction, the cumulative `self.processed_files` map is never reset between
the passes, and the per-file check inside `process_domain_files` skips any
basename that already has a record; so a file whose record was created (with
at least one output) by the calibration pass of its domain is skipped by the
evaluation pass.  The first conjunct ties the six batcher calls named here to
`create_dataset_splits` itself. -/
theorem C1_no_file_contributes_to_both_buckets (env : Env) (cfg : Config)
    (speech_files music_files env_files : List String) (output_dir : String)
    (records0 : List (String × FileRecord)) :
    let c1 := process_domain_files env cfg speech_files output_dir "speech" "calibration" records0
    let c2 := process_domain_files env cfg music_files output_dir "music" "calibration"
      c1.processed_files
    let c3 := process_domain_files env cfg env_files output_dir "environmental" "calibration"
      c2.processed_files
    let e1 := process_domain_files env cfg speech_files output_dir "speech" "evaluation"
      c3.processed_files
    let e2 := process_domain_files env cfg music_files output_dir "music" "evaluation"
      e1.processed_files
    let e3 := process_domain_files env cfg env_files output_dir "environmental" "evaluation"
      e2.processed_files
    (create_dataset_splits env cfg speech_files music_files env_files output_dir records0 =
      ([("speech_calibration", c1.outputs), ("music_calibration", c2.outputs),
        ("environmental_calibration", c3.outputs), ("speech_evaluation", e1.outputs),
        ("music_evaluation", e2.outputs), ("environmental_evaluation", e3.outputs)],
       e3.processed_files)) ∧
    (∀ b, contributes b records0 c1.processed_files →
      ¬ contributes b c3.processed_files e1.processed_files) ∧
    (∀ b, contributes b c1.processed_files c2.processed_files →
      ¬ contributes b e1.processed_files e2.processed_files) ∧
    (∀ b, contributes b c2.processed_files c3.processed_files →
      ¬ contributes b e2.processed_files e3.processed_files) := by
  intro c1 c2 c3 e1 e2 e3
  refine ⟨rfl, ?_, ?_, ?_⟩
  · rintro b ⟨h0, r, hsome, hne⟩ ⟨h1, _⟩
    have m2 := process_domain_files_records_mono env cfg music_files output_dir "music"
      "calibration" c1.processed_files b r hsome
    have m3 := process_domain_files_records_mono env cfg env_files output_dir "environmental"
      "calibration" c2.processed_files b r m2
    rw [m3] at h1
    exact Option.noConfusion h1
  · rintro b ⟨h0, r, hsome, hne⟩ ⟨h1, _⟩
    have m3 := process_domain_files_records_mono env cfg env_files output_dir "environmental"
      "calibration" c2.processed_files b r hsome
    have m4 := process_domain_files_records_mono env cfg speech_files output_dir "speech"
      "evaluation" c3.processed_files b r m3
    rw [m4] at h1
    exact Option.noConfusion h1
  · rintro b ⟨h0, r, hsome, hne⟩ ⟨h1, _⟩
    have m4 := process_domain_files_records_mono env cfg speech_files output_dir "speech"
      "evaluation" c3.processed_files b r hsome
    have m5 := process_domain_files_records_mono env cfg music_files output_dir "music"
      "evaluation" e1.processed_files b r m4
    rw [m5] at h1
    exact Option.noConfusion h1

/-- Counterexample computation for C1: in a run where `a.wav` alone could
fill both music quotas (it yields two valid segments and each quota is 1),
the calibration bucket is fed by `a.wav` and the evaluation bucket by
`b.wav`; the records show each file contributed exactly one output, so no
file contributed to both buckets, contradicting the claimed sharing. -/
theorem C1_counterexample :
    (create_dataset_splits envPair cfgOne [] ["a.wav", "b.wav"] [] "out" []).1 =
      [("speech_calibration", []),
       ("music_calibration", ["out/calibration/music/music_0000.wav"]),
       ("environmental_calibration", []),
       ("speech_evaluation", []),
       ("music_evaluation", ["out/evaluation/music/music_0000.wav"]),
       ("environmental_evaluation", [])] ∧
    (create_dataset_splits envPair cfgOne [] ["a.wav", "b.wav"] [] "out" []).2 =
      [("a.wav", ⟨"a.wav", "t0", ["music_0000.wav"]⟩),
       ("b.wav", ⟨"b.wav", "t0", ["music_0000.wav"]⟩)] := by
  have h : create_dataset_splits envPair cfgOne [] ["a.wav", "b.wav"] [] "out" [] =
      ([("speech_calibration", []),
        ("music_calibration", ["out/calibration/music/music_0000.wav"]),
        ("environmental_calibration", []),
        ("speech_evaluation", []),
        ("music_evaluation", ["out/evaluation/music/music_0000.wav"]),
        ("environmental_evaluation", [])],
       [("a.wav", ⟨"a.wav", "t0", ["music_0000.wav"]⟩),
        ("b.wav", ⟨"b.wav", "t0", ["music_0000.wav"]⟩)]) := by
    simp only [create_dataset_splits, process_domain_files_nil, musicCalRun, musicEvalRun]
  exact ⟨congrArg Prod.fst h, congrArg Prod.snd h⟩

/-- Witness for C1: in the `envPair` run, `a.wav` contributed to the music
calibration bucket, and the theorem yields that it does not contribute to the
music evaluation bucket. -/
theorem C1_no_file_contributes_to_both_buckets_witness :
    ¬ contributes ("a.wav")
      (process_domain_files envPair cfgOne [] "out" "speech" "evaluation"
        (process_domain_files envPair cfgOne [] "out" "environmental" "calibration"
          (process_domain_files envPair cfgOne ["a.wav", "b.wav"] "out" "music" "calibration"
            (process_domain_files envPair cfgOne [] "out" "speech" "calibration"
              []).processed_files).processed_files).processed_files).processed_files
      (process_domain_files envPair cfgOne ["a.wav", "b.wav"] "out" "music" "evaluation"
        (process_domain_files envPair cfgOne [] "out" "speech" "evaluation"
          (process_domain_files envPair cfgOne [] "out" "environmental" "calibration"
            (process_domain_files envPair cfgOne ["a.wav", "b.wav"] "out" "music" "calibration"
              (process_domain_files envPair cfgOne [] "out" "speech" "calibration"
                []).processed_files).processed_files).processed_files).processed_files).processed_files := by
  have hc : contributes ("a.wav")
      (process_domain_files envPair cfgOne [] "out" "speech" "calibration" []).processed_files
      (process_domain_files envPair cfgOne ["a.wav", "b.wav"] "out" "music" "calibration"
        (process_domain_files envPair cfgOne [] "out" "speech" "calibration"
          []).processed_files).processed_files := by
    refine ⟨rfl, ⟨"a.wav", "t0", ["music_0000.wav"]⟩, ?_, by decide⟩
    rw [show (process_domain_files envPair cfgOne [] "out" "speech" "calibration"
      []).processed_files = [] from rfl]
    rw [musicCalRun]
    decide
  exact (C1_no_file_contributes_to_both_buckets envPair cfgOne [] ["a.wav", "b.wav"] []
    "out" []).2.2.1 ("a.wav") hc

/-- C2 (amended): with calibration quota 2 for domain music and three
candidate files each yielding exactly one valid segment, the first two files
produce `music_0000.wav` and `music_0001.wav` and receive records, but the
third file is never loaded and receives no Processed-File Record: the quota
check at the top of the per-file loop breaks out of the loop before the third
file is examined. -/
theorem C2_quota_break_precedes_third_file (env : Env) (cfg : Config) (output_dir : String)
    (f1 f2 f3 : String) (s1 s2 s3 : List ℚ × ℕ) (records : List (String × FileRecord))
    (hq : cfg.calibration_samples = 2)
    (hp1 : cfg.previously_processed_files.contains (basename f1) = false)
    (hp2 : cfg.previously_processed_files.contains (basename f2) = false)
    (hp3 : cfg.previously_processed_files.contains (basename f3) = false)
    (hr1 : records.lookup (basename f1) = none)
    (hr2 : records.lookup (basename f2) = none)
    (hr3 : records.lookup (basename f3) = none)
    (hd12 : basename f1 ≠ basename f2)
    (hd13 : basename f1 ≠ basename f3)
    (hd23 : basename f2 ≠ basename f3)
    (hl1 : load_and_process_audio env cfg f1 "calibration" = .ok [s1])
    (hl2 : load_and_process_audio env cfg f2 "calibration" = .ok [s2])
    (hl3 : load_and_process_audio env cfg f3 "calibration" = .ok [s3]) :
    process_domain_files env cfg [f1, f2, f3] output_dir "music" "calibration" records =
      ⟨[segmentPath (output_dir ++ "/" ++ "calibration" ++ "/" ++ "music") "music" 0,
        segmentPath (output_dir ++ "/" ++ "calibration" ++ "/" ++ "music") "music" 1],
       records ++
         [(basename f1, ⟨f1, env.now, [segmentName "music" 0]⟩),
          (basename f2, ⟨f2, env.now, [segmentName "music" 1]⟩)]⟩ ∧
    (process_domain_files env cfg [f1, f2, f3] output_dir "music" "calibration"
      records).processed_files.lookup (basename f3) = none := by
  obtain ⟨g1, r1⟩ := s1
  obtain ⟨g2, r2⟩ := s2
  have hmain : process_domain_files env cfg [f1, f2, f3] output_dir "music" "calibration"
      records =
      ⟨[segmentPath (output_dir ++ "/" ++ "calibration" ++ "/" ++ "music") "music" 0,
        segmentPath (output_dir ++ "/" ++ "calibration" ++ "/" ++ "music") "music" 1],
       records ++
         [(basename f1, ⟨f1, env.now, [segmentName "music" 0]⟩),
          (basename f2, ⟨f2, env.now, [segmentName "music" 1]⟩)]⟩ := by
    have hunf : process_domain_files env cfg [f1, f2, f3] output_dir "music" "calibration"
        records =
        processLoop env cfg (output_dir ++ "/" ++ "calibration" ++ "/" ++ "music") "music"
          "calibration" cfg.calibration_samples [f1, f2, f3] ⟨[], records⟩ := by
      simp [process_domain_files]
    rw [hunf, hq]
    rw [processLoop_step_ok env cfg (output_dir ++ "/" ++ "calibration" ++ "/" ++ "music")
      "music" "calibration" 2 f1 [f2, f3] ⟨[], records⟩ [(g1, r1)] hp1 (by norm_num) hr1 hl1]
    norm_num [saveSegments, List.length_nil]
    rw [processLoop_step_ok env cfg (output_dir ++ "/" ++ "calibration" ++ "/" ++ "music")
      "music" "calibration" 2 f2 [f3] _ [(g2, r2)] hp2 (by norm_num [saveSegments])
      (by rw [lookup_append_ne records (basename f2) (basename f1) _ hr2 (Ne.symm hd12)])
      hl2]
    norm_num [saveSegments, List.length_nil]
    rw [processLoop_break env cfg (output_dir ++ "/" ++ "calibration" ++ "/" ++ "music")
      "music" "calibration" 2 f3 [] _ hp3 (by norm_num [saveSegments])]
  refine ⟨hmain, ?_⟩
  rw [hmain]
  rw [show records ++
      [(basename f1, (⟨f1, env.now, [segmentName "music" 0]⟩ : FileRecord)),
       (basename f2, ⟨f2, env.now, [segmentName "music" 1]⟩)] =
      (records ++ [(basename f1, ⟨f1, env.now, [segmentName "music" 0]⟩)]) ++
      [(basename f2, ⟨f2, env.now, [segmentName "music" 1]⟩)] by simp]
  apply lookup_append_ne _ _ _ _ _ (Ne.symm hd23)
  exact lookup_append_ne records _ _ _ hr3 (Ne.symm hd13)

/-- Counterexample computation for C2: in the quota-2 scenario with three
one-segment files, the first two files produce the two outputs exactly as the
claim says, but the third file has no Processed-File Record at all — its
lookup in the record map comes back `none` — contradicting the claim that it
receives a record with an empty output list. -/
theorem C2_counterexample :
    (process_domain_files envThree cfgQuotaTwo ["a.wav", "b.wav", "c.wav"] "out" "music"
      "calibration" []).outputs =
      ["out/calibration/music/music_0000.wav", "out/calibration/music/music_0001.wav"] ∧
    (process_domain_files envThree cfgQuotaTwo ["a.wav", "b.wav", "c.wav"] "out" "music"
      "calibration" []).processed_files.lookup ("c.wav") = none := by
  rw [quotaTwoRun]
  exact ⟨rfl, rfl⟩

/-- Witness for C2 at the concrete quota-2 fixture. -/
theorem C2_quota_break_precedes_third_file_witness :
    process_domain_files envThree cfgQuotaTwo ["a.wav", "b.wav", "c.wav"] "out" "music"
      "calibration" [] =
      ⟨[segmentPath ("out" ++ "/" ++ "calibration" ++ "/" ++ "music") "music" 0,
        segmentPath ("out" ++ "/" ++ "calibration" ++ "/" ++ "music") "music" 1],
       [] ++ [(basename ("a.wav"), ⟨"a.wav", envThree.now, [segmentName "music" 0]⟩),
              (basename ("b.wav"), ⟨"b.wav", envThree.now, [segmentName "music" 1]⟩)]⟩ ∧
    (process_domain_files envThree cfgQuotaTwo ["a.wav", "b.wav", "c.wav"] "out" "music"
      "calibration" []).processed_files.lookup (basename ("c.wav")) = none :=
  C2_quota_break_precedes_third_file envThree cfgQuotaTwo "out" "a.wav" "b.wav" "c.wav"
    ([1], 1) ([1], 1) ([1], 1) []
    rfl (by decide) (by decide) (by decide) rfl rfl rfl (by decide) (by decide) (by decide)
    (envThree_load ("a.wav") (Or.inl rfl) ("calibration"))
    (envThree_load ("b.wav") (Or.inr (Or.inl rfl)) ("calibration"))
    (envThree_load ("c.wav") (Or.inr (Or.inr rfl)) ("calibration"))

/-- Witness for C4 at the two-sample fixture: one window of length 1 at each
of positions 0 and 1. -/
theorem C4_sequential_windowing_witness :
    ∃ segs, load_and_process_audio envPair cfgOne "a.wav" "calibration" = .ok segs ∧
      segs = ((List.range ((([1, -1] : List ℚ).length - cfgOne.target_samples) /
            (cfgOne.target_samples + cfgOne.gap_samples) + 1)).map
        (fun k => ((((normalize [1, -1]).map
            (fun x => x - listMean (normalize [1, -1]))).drop
              (k * (cfgOne.target_samples + cfgOne.gap_samples))).take cfgOne.target_samples,
          1))).filter (fun q => energyOK q.1) ∧
      segs.length ≤ (([1, -1] : List ℚ).length - cfgOne.target_samples) /
        (cfgOne.target_samples + cfgOne.gap_samples) + 1 :=
  C4_sequential_windowing envPair cfgOne "a.wav" "calibration" [1, -1] 1 rfl (by decide)
    (by decide)

/-- Witness for C5 at the one-sample short clip. -/
theorem C5_short_clip_fallback_witness :
    ((1 : ℚ) / 10000 ≤ meanSq [1] →
      load_and_process_audio envThree cfgQuotaTwo "a.wav" "calibration" = .ok [([1], 1)]) ∧
    (meanSq [1] < 1 / 10000 →
      load_and_process_audio envThree cfgQuotaTwo "a.wav" "calibration" = .ok []) :=
  C5_short_clip_fallback envThree cfgQuotaTwo "a.wav" "calibration" [1] 1 rfl (by decide)

/-- Witness for C6: decode errors propagate on both loader paths and the
batcher skips the failing file without a record. -/
theorem C6_per_file_error_boundary_witness :
    load_audio_file envVideo cfgOne "w.mp4" = .error ("bad video") ∧
    load_audio_file envThree cfgQuotaTwo "zz.wav" = .error ("missing file") ∧
    load_and_process_audio envThree cfgQuotaTwo "zz.wav" "calibration" =
      .error ("missing file") ∧
    processLoop envThree cfgQuotaTwo "d" "music" "calibration" 2 ["zz.wav"] ⟨[], []⟩ =
      processLoop envThree cfgQuotaTwo "d" "music" "calibration" 2 [] ⟨[], []⟩ := by
  refine ⟨?_, ?_, ?_, ?_⟩
  · exact C6_per_file_error_boundary.1 envVideo cfgOne "w.mp4" "bad video" (by decide) rfl
  · exact C6_per_file_error_boundary.2.1 envThree cfgQuotaTwo "zz.wav" "missing file"
      (by decide) rfl
  · exact C6_per_file_error_boundary.2.2.1 envThree cfgQuotaTwo "zz.wav" "calibration"
      ("missing file") rfl
  · exact C6_per_file_error_boundary.2.2.2 envThree cfgQuotaTwo "d" "music" "calibration" 2
      "zz.wav" [] ⟨[], []⟩ ("missing file") (by decide) (by decide) rfl rfl

/-- Witness for C7 at the no-audio video fixture. -/
theorem C7_no_audio_track_witness :
    load_audio_file envVideo cfgOne "v.mp4" = .ok (none, 0) ∧
    load_and_process_audio envVideo cfgOne "v.mp4" "calibration" = .ok [] ∧
    processLoop envVideo cfgOne "d" "music" "calibration" 1 ["v.mp4"] ⟨[], []⟩ =
      processLoop envVideo cfgOne "d" "music" "calibration" 1 []
        ⟨[], [("v.mp4", ⟨"v.mp4", "t1", []⟩)]⟩ := by
  have h := C7_no_audio_track envVideo cfgOne "v.mp4" (by decide) rfl
  exact ⟨h.1, h.2.1 ("calibration"),
    h.2.2 ("d") ("music") ("calibration") 1 [] ⟨[], []⟩ (by decide) (by decide) rfl⟩

/-- Witness for C8: a file recorded in the previous run is skipped and the
whole call is a no-op when every candidate is previously processed. -/
theorem C8_resumption_idempotent_witness :
    processLoop envPair cfgPrev "d" "music" "calibration" 1 ["a.wav"] ⟨[], []⟩ =
      processLoop envPair cfgPrev "d" "music" "calibration" 1 [] ⟨[], []⟩ ∧
    process_domain_files envPair cfgPrev ["a.wav"] "out" "music" "calibration" [] =
      ⟨[], []⟩ := by
  refine ⟨?_, ?_⟩
  · exact C8_resumption_idempotent.1 envPair cfgPrev "d" "music" "calibration" 1 "a.wav" []
      ⟨[], []⟩ (by decide)
  · exact C8_resumption_idempotent.2 envPair cfgPrev ["a.wav"] "out" "music" "calibration" []
      (by intro f hf; simp at hf; subst hf; decide)

/-- Witness for C10: the concrete calibration run writes its first output
under index 0. -/
theorem C10_index_restarts_at_zero_witness :
    (process_domain_files envPair cfgOne ["a.wav", "b.wav"] "out" "music" "calibration"
      []).outputs.head? =
      some (segmentPath ("out" ++ "/" ++ "calibration" ++ "/" ++ "music") "music" 0) :=
  (C10_index_restarts_at_zero envPair cfgOne ["a.wav", "b.wav"] "out" "music" "calibration" []
    envPair cfgOne ["a.wav", "b.wav"] []).1 (by simp [musicCalRun])

end ADP
